import Mathlib

/-!
Verification of the ueGear Unreal Engine helper layer
(`Plugins/ueGear/Content/Python/ueGear/helpers.py` and
`Plugins/ueGear/Content/Python/ueGear/assets.py`).

The Python functions are shallowly embedded as Lean definitions.  Host-engine
calls (`unreal.*`) are modelled by explicit oracle parameters (for example a
directory-existence check `String → Bool`, or an asset loader
`String → Option LevelSequence`), raised exceptions become `Except` errors,
and observable side effects (log messages, host mutations) are returned as
explicit traces.  Python integers are `Int`, Python lists are `List`,
Python dictionaries are association lists with distinct keys.
-/

namespace UeGear

/-! ## List-indexing helpers (`helpers.get_index_in_list`, `helpers.get_first_in_list`)

Python indexing `list_arg[index]` accepts negative indices (counted from the
end) and raises `IndexError` when the effective index is out of bounds; the
raised case is the `Except.error` branch below. -/

/-- Python list subscript `xs[i]`: negative indices count from the end and an
out-of-bounds access yields `none` (an `IndexError`). -/
def py_subscript {α : Type} (xs : List α) (i : Int) : Option α :=
  if i < 0 then
    let j : Int := (xs.length : Int) + i
    if j < 0 then none else xs.get? j.toNat
  else
    xs.get? i.toNat

/-- Embedding of `helpers.get_index_in_list`: returns
`list_arg[index] if list_arg and len(list_arg) > abs(index) else default`.
`Except.error` models a raised `IndexError`. -/
def get_index_in_list {α : Type} (list_arg : List α) (index : Int) (default : α) :
    Except String α :=
  if !list_arg.isEmpty && decide (index.natAbs < list_arg.length) then
    match py_subscript list_arg index with
    | some v => Except.ok v
    | none => Except.error "IndexError"
  else
    Except.ok default

/-- Embedding of `helpers.get_first_in_list`: `get_index_in_list(list_arg, 0, default)`. -/
def get_first_in_list {α : Type} (list_arg : List α) (default : α) : Except String α :=
  get_index_in_list list_arg 0 default

/-- C5: for every list, every default and every out-of-range integer index,
`get_index_in_list` returns the given default without raising; moreover
`get_first_in_list` returns the default on the empty list and the first
element on a non-empty list, again without raising. -/
theorem C5_index_helpers_safe {α : Type} (xs : List α) (index : Int) (default : α)
    (hout : (xs.length : Int) ≤ index ∨ index < -(xs.length : Int)) :
    get_index_in_list xs index default = Except.ok default ∧
    get_first_in_list ([] : List α) default = Except.ok default ∧
    ∀ (y : α) (ys : List α), get_first_in_list (y :: ys) default = Except.ok y := by
  refine ⟨?_, ?_, ?_⟩
  · have habs : xs.length ≤ index.natAbs := by
      rcases hout with h | h
      · omega
      · omega
    unfold get_index_in_list
    rw [if_neg]
    simp only [Bool.and_eq_true, Bool.not_eq_true', decide_eq_true_eq, List.isEmpty_eq_false,
      not_and]
    intro _
    omega
  · rfl
  · intro y ys
    unfold get_first_in_list get_index_in_list
    rw [if_pos (by simp)]
    rfl

/-- Witness for C5 at a concrete out-of-range input. -/
theorem C5_index_helpers_safe_witness :
    get_index_in_list ([10, 20] : List Int) 5 0 = Except.ok 0 :=
  (C5_index_helpers_safe [10, 20] 5 0 (Or.inl (by norm_num))).1

/-! ## Level sequences (`helpers.remove_sequence_camera`, `helpers.get_subsequences`)

Host objects are modelled by their observable fields: a sequence binding has a
name (`get_name`), a display name (`get_display_name`), child possessables and
tracks; a master track has a class name and sections.  `unreal.load_asset` is
an oracle `String → Option LevelSequence`; the host mutations performed by
`remove_sequence_camera` are returned as an explicit trace list. -/

/-- A level-sequence object binding (`unreal.SequencerBindingProxy`). -/
structure Binding where
  name : String
  displayName : String
  childPossessables : List String
  tracks : List String
deriving DecidableEq, Repr

/-- A movie-scene master track: its class name and its sections. -/
structure MasterTrack where
  trackClass : String
  sections : List String
deriving DecidableEq, Repr

/-- A loaded level-sequence asset. -/
structure LevelSequence where
  bindings : List Binding
  masterTracks : List MasterTrack
deriving DecidableEq, Repr

/-- One host mutation performed by `remove_sequence_camera`. -/
inductive SeqMutation where
  | closeSequence
  | removeChild (child : String)
  | removeTrack (track : String)
  | removeBinding (bindingName : String)
  | refreshSequence
  | saveAsset
deriving DecidableEq, Repr

/-- Embedding of `helpers.remove_sequence_camera`.  The loop over bindings
selects the first binding satisfying the Python condition
`binding.get_name() or binding.get_display_name() == camera_name`, which by
Python operator precedence is `(name is truthy) or (display name equals
camera_name)`.  Returns the Python result together with the trace of host
mutations performed. -/
def remove_sequence_camera (load_asset : String → Option LevelSequence)
    (level_sequence_name camera_name : String) : Bool × List SeqMutation :=
  match load_asset level_sequence_name with
  | none => (false, [])
  | some level_sequence_asset =>
    match level_sequence_asset.bindings.find?
        (fun binding => (binding.name != "") || (binding.displayName == camera_name)) with
    | none => (false, [])
    | some camera_bind =>
      (true,
        SeqMutation.closeSequence ::
          (camera_bind.childPossessables.map SeqMutation.removeChild ++
            camera_bind.tracks.map SeqMutation.removeTrack ++
            [SeqMutation.removeBinding camera_bind.name, SeqMutation.refreshSequence,
              SeqMutation.saveAsset]))

/-- Embedding of `helpers.get_subsequences`: loads the sequence, scans the
master tracks for the first one whose class is `MovieSceneSubTrack`, and
returns its sections (empty list when the asset or the track is missing). -/
def get_subsequences (load_asset : String → Option LevelSequence)
    (level_sequence_name : String) : List String :=
  match load_asset level_sequence_name with
  | none => []
  | some level_sequence_asset =>
    match level_sequence_asset.masterTracks.find?
        (fun track => track.trackClass == "MovieSceneSubTrack") with
    | none => []
    | some found_subscene_track => found_subscene_track.sections

/-- A concrete sequence for C1: a single binding whose name and display name
are both `OtherActor`, so no binding's name or display name equals the
requested camera name `Camera`. -/
def c1_sequence : LevelSequence :=
  { bindings := [{ name := "OtherActor", displayName := "OtherActor",
                   childPossessables := ["CameraComponent"], tracks := ["TransformTrack"] }],
    masterTracks := [] }

/-- The asset loader for the C1 scenario: only `/Game/Seq` is loadable. -/
def c1_load : String → Option LevelSequence :=
  fun n => if n = "/Game/Seq" then some c1_sequence else none

/-- C1: the claim says that when no binding's name or display name equals the
given camera name, `remove_sequence_camera` returns `False` and performs no
mutation.  The code instead parses its condition as
`name or (display_name == camera_name)`, so any binding with a non-empty name
matches: on a sequence whose only binding is named `OtherActor` and a requested
camera `Camera`, the function removes that binding and returns `True`. -/
theorem C1_linear_search_code_behavior :
    remove_sequence_camera c1_load "/Game/Seq" "Camera" =
      (true,
        [SeqMutation.closeSequence, SeqMutation.removeChild "CameraComponent",
          SeqMutation.removeTrack "TransformTrack", SeqMutation.removeBinding "OtherActor",
          SeqMutation.refreshSequence, SeqMutation.saveAsset]) ∧
    ∀ b ∈ c1_sequence.bindings, b.name ≠ "Camera" ∧ b.displayName ≠ "Camera" := by
  constructor
  · rfl
  · intro b hb
    simp only [c1_sequence, List.mem_singleton] at hb
    subst hb
    exact ⟨by decide, by decide⟩

/-- C9: a sequence name that cannot be loaded makes `remove_sequence_camera`
return `False` with no mutation and `get_subsequences` return the empty list;
and a loadable sequence with no subscene master track makes `get_subsequences`
return the empty list. -/
theorem C9_missing_sequence_short_circuit
    (load_asset : String → Option LevelSequence) (level_sequence_name camera_name : String)
    (hmissing : load_asset level_sequence_name = none) :
    remove_sequence_camera load_asset level_sequence_name camera_name = (false, []) ∧
    get_subsequences load_asset level_sequence_name = [] ∧
    ∀ (load2 : String → Option LevelSequence) (seq : LevelSequence),
      load2 level_sequence_name = some seq →
      (∀ t ∈ seq.masterTracks, t.trackClass ≠ "MovieSceneSubTrack") →
      get_subsequences load2 level_sequence_name = [] := by
  refine ⟨?_, ?_, ?_⟩
  · unfold remove_sequence_camera
    rw [hmissing]
  · unfold get_subsequences
    rw [hmissing]
  · intro load2 seq hload hnotrack
    have hfind : seq.masterTracks.find?
        (fun track => track.trackClass == "MovieSceneSubTrack") = none := by
      rw [List.find?_eq_none]
      intro t ht
      simpa using hnotrack t ht
    unfold get_subsequences
    rw [hload]
    simp only [hfind]

/-- Witness for C9 at a concrete missing sequence. -/
theorem C9_missing_sequence_short_circuit_witness :
    remove_sequence_camera (fun _ => none) "/Game/Missing" "Cam" = (false, []) ∧
    get_subsequences (fun _ => none) "/Game/Missing" = [] :=
  ⟨(C9_missing_sequence_short_circuit (fun _ => none) "/Game/Missing" "Cam" rfl).1,
    (C9_missing_sequence_short_circuit (fun _ => none) "/Game/Missing" "Cam" rfl).2.1⟩

/-! ## Maya → Unreal transform conversion
(`helpers.convert_maya_transforms_into_unreal_transforms`)

Scalars are modelled by `ℚ`: the conversion only permutes components and
multiplies by `-1`, both exact operations on IEEE floats, so rationals are a
faithful model.  A Python argument that is `None` or an empty list is falsy
and replaced by the default; it is modelled as `Option` with `none` for the
falsy case. -/

/-- Embedding of `helpers.convert_maya_transforms_into_unreal_transforms`:
`unreal.Vector(t[0], t[2], t[1])`, `unreal.Rotator(r[0], r[2], r[1] * -1)`,
`unreal.Vector(s[0], s[2], s[1])`, with defaults `[0,0,0]`, `[0,0,0]`,
`[1,1,1]` when the corresponding argument is falsy. -/
def convert_maya_transforms_into_unreal_transforms
    (translation rotation scale : Option (ℚ × ℚ × ℚ)) :
    (ℚ × ℚ × ℚ) × (ℚ × ℚ × ℚ) × (ℚ × ℚ × ℚ) :=
  let maya_translation := translation.getD (0, 0, 0)
  let maya_rotation := rotation.getD (0, 0, 0)
  let maya_scale := scale.getD (1, 1, 1)
  ((maya_translation.1, maya_translation.2.2, maya_translation.2.1),
    (maya_rotation.1, maya_rotation.2.2, maya_rotation.2.1 * (-1)),
    (maya_scale.1, maya_scale.2.2, maya_scale.2.1))

/-- Applying the conversion twice, on the rotation component. -/
def convert_twice_rotation (r : ℚ × ℚ × ℚ) : ℚ × ℚ × ℚ :=
  (convert_maya_transforms_into_unreal_transforms none
      (some (convert_maya_transforms_into_unreal_transforms none (some r) none).2.1)
      none).2.1

/-- C4 counterexample: the claim says a double application restores the
rotation except for a single negated axis.  At rotation `(1, 2, 3)` the code
yields `(1, -2, -3)` (two axes negated), which differs from every version of
`(1, 2, 3)` with exactly one axis negated. -/
theorem C4_double_conversion_counterexample :
    convert_twice_rotation (1, 2, 3) = (1, -2, -3) ∧
    convert_twice_rotation (1, 2, 3) ≠ (-1, 2, 3) ∧
    convert_twice_rotation (1, 2, 3) ≠ (1, -2, 3) ∧
    convert_twice_rotation (1, 2, 3) ≠ (1, 2, -3) := by
  refine ⟨?_, ?_, ?_, ?_⟩ <;>
    simp only [convert_twice_rotation, convert_maya_transforms_into_unreal_transforms,
      Option.getD_some] <;>
    norm_num [Prod.ext_iff]

/-- C4 (amended): the conversion is the fixed axis permutation swapping the
second and third components, with `-1` applied to the rotation's new third
component.  Applying it twice restores translation and scale exactly, and
sends the rotation `(a, b, c)` to `(a, -b, -c)`: the first rotation axis is
restored and the second and third rotation axes are both negated. -/
theorem C4_double_conversion_amended (t r s : ℚ × ℚ × ℚ) :
    convert_maya_transforms_into_unreal_transforms (some t) (some r) (some s) =
      ((t.1, t.2.2, t.2.1), (r.1, r.2.2, r.2.1 * (-1)), (s.1, s.2.2, s.2.1)) ∧
    (convert_maya_transforms_into_unreal_transforms
        (some (convert_maya_transforms_into_unreal_transforms (some t) (some r) (some s)).1)
        (some (convert_maya_transforms_into_unreal_transforms (some t) (some r) (some s)).2.1)
        (some (convert_maya_transforms_into_unreal_transforms (some t) (some r) (some s)).2.2)) =
      (t, (r.1, -r.2.1, -r.2.2), s) := by
  obtain ⟨t1, t2, t3⟩ := t
  obtain ⟨r1, r2, r3⟩ := r
  obtain ⟨s1, s2, s3⟩ := s
  refine ⟨rfl, ?_⟩
  simp only [convert_maya_transforms_into_unreal_transforms, Option.getD_some]
  norm_num

/-! ## Folder-name disambiguation (`helpers.create_folder`)

The Python loop
```
index = 1
while True:
    if not unreal.EditorAssetLibrary.does_directory_exist(root + "/" + name):
        unreal.EditorAssetLibrary.make_directory(root + "/" + name)
        break
    name = name + str(index)
    index += 1
return root + "/" + name
```
is embedded with the host's `does_directory_exist` as a boolean oracle and an
explicit fuel bound: `none` means the loop is still running after `fuel`
iterations.  Note that the loop rebinds `name` each iteration, so the
candidates accumulate suffixes: `name`, `name1`, `name12`, `name123`, … -/

/-- The folder-name candidate tried after `k` retries of `create_folder`'s
loop: `folder_candidate name 0 = name` and each retry appends the decimal
rendering of the current index to the previous candidate. -/
def folder_candidate (name : String) : Nat → String
  | 0 => name
  | k + 1 => folder_candidate name k ++ toString (k + 1)

/-- The retry loop of `helpers.create_folder`.  On success returns the list
of directories created (`make_directory` calls) and the returned path. -/
def create_folder_loop (does_directory_exist : String → Bool) (root : String) :
    Nat → String → Nat → Option (List String × String)
  | 0, _, _ => none
  | fuel + 1, name, index =>
    if does_directory_exist (root ++ "/" ++ name) = false then
      some ([root ++ "/" ++ name], root ++ "/" ++ name)
    else
      create_folder_loop does_directory_exist root fuel (name ++ toString index) (index + 1)

/-- Embedding of `helpers.create_folder`: runs the retry loop starting at the
unmodified name with index 1. -/
def create_folder (does_directory_exist : String → Bool) (root name : String) (fuel : Nat) :
    Option (List String × String) :=
  create_folder_loop does_directory_exist root fuel name 1

/-- Behaviour of the retry loop: started at candidate `j`, if candidate
`j + k` is the first collision-free candidate from `j` on, the loop creates
and returns exactly that candidate. -/
theorem create_folder_loop_spec (ex : String → Bool) (root name : String) :
    ∀ (k j fuel : Nat),
      ex (root ++ "/" ++ folder_candidate name (j + k)) = false →
      (∀ i, j ≤ i → i < j + k → ex (root ++ "/" ++ folder_candidate name i) = true) →
      k < fuel →
      create_folder_loop ex root fuel (folder_candidate name j) (j + 1) =
        some ([root ++ "/" ++ folder_candidate name (j + k)],
          root ++ "/" ++ folder_candidate name (j + k)) := by
  intro k
  induction k with
  | zero =>
    intro j fuel hk hmin hfuel
    obtain ⟨fuel, rfl⟩ : ∃ f, fuel = f + 1 := ⟨fuel - 1, by omega⟩
    simp only [Nat.add_zero] at hk ⊢
    simp only [create_folder_loop]
    rw [if_pos hk]
  | succ k ih =>
    intro j fuel hk hmin hfuel
    obtain ⟨fuel, rfl⟩ : ∃ f, fuel = f + 1 := ⟨fuel - 1, by omega⟩
    have hj : ex (root ++ "/" ++ folder_candidate name j) = true :=
      hmin j le_rfl (by omega)
    simp only [create_folder_loop]
    rw [if_neg (by simp [hj])]
    have hstep : folder_candidate name j ++ toString (j + 1) =
        folder_candidate name (j + 1) := rfl
    rw [hstep]
    have h1 : j + 1 + k = j + (k + 1) := by omega
    have := ih (j + 1) fuel (by rw [h1]; exact hk)
      (fun i hi1 hi2 => hmin i (by omega) (by omega)) (by omega)
    rw [h1] at this
    exact this

/-- C3 counterexample: with an existence check that reports collisions for
`/Game/NewFolder` and `/Game/NewFolder1` only, the candidate tried on the
second retry is `NewFolder12` (the previous candidate with `2` appended), not
`NewFolder2` (the original name with `2` appended) as the claim states; the
directory created and returned is `/Game/NewFolder12`. -/
theorem C3_folder_suffix_counterexample :
    create_folder (fun p => p == "/Game/NewFolder" || p == "/Game/NewFolder1")
        "/Game" "NewFolder" 10 =
      some (["/Game/NewFolder12"], "/Game/NewFolder12") ∧
    "/Game/NewFolder12" ≠ "/Game/NewFolder2" := by
  exact ⟨by rfl, by decide⟩

/-- C3 (amended): `create_folder` tries the unmodified name first and appends
an integer suffix only on collision, but the suffix accumulates: the candidate
tried on the `k`-th retry is the previous candidate with the integer `k`
appended (so the original name followed by the digits of `1, …, k`
concatenated), and the directory created and the path returned are the first
candidate for which the existence check reports no collision. -/
theorem C3_folder_suffix_amended (ex : String → Bool) (root name : String) (k fuel : Nat)
    (hk : ex (root ++ "/" ++ folder_candidate name k) = false)
    (hmin : ∀ j, j < k → ex (root ++ "/" ++ folder_candidate name j) = true)
    (hfuel : k < fuel) :
    folder_candidate name 0 = name ∧
    (∀ m, folder_candidate name (m + 1) = folder_candidate name m ++ toString (m + 1)) ∧
    create_folder ex root name fuel =
      some ([root ++ "/" ++ folder_candidate name k], root ++ "/" ++ folder_candidate name k) := by
  refine ⟨rfl, fun m => rfl, ?_⟩
  have := create_folder_loop_spec ex root name k 0 fuel (by simpa using hk)
    (fun i hi1 hi2 => hmin i (by omega)) hfuel
  simpa [create_folder, folder_candidate] using this

/-- Witness for C3 (amended): one collision on `/Game/A`, resolved at `A1`. -/
theorem C3_folder_suffix_amended_witness :
    create_folder (fun p => p == "/Game/A") "/Game" "A" 3 =
      some (["/Game/A1"], "/Game/A1") := by
  have := (C3_folder_suffix_amended (fun p => p == "/Game/A") "/Game" "A" 1 3
    (by rfl)
    (by
      intro j hj
      have hj0 : j = 0 := by omega
      subst hj0
      rfl)
    (by omega)).2.2
  simpa using this

/-! ### Termination of `create_folder` (C6) -/

/-- `Nat.toDigitsCore` never shortens its accumulator. -/
theorem toDigitsCore_length_le (b : Nat) :
    ∀ (fuel n : Nat) (ds : List Char), ds.length ≤ (Nat.toDigitsCore b fuel n ds).length := by
  intro fuel
  induction fuel with
  | zero => intro n ds; exact le_refl _
  | succ fuel ih =>
    intro n ds
    simp only [Nat.toDigitsCore]
    split
    · simp
    · exact le_trans (by simp) (ih (n / b) _)

/-- The decimal digit list of a natural number is non-empty. -/
theorem toDigits_length_pos (b n : Nat) : 0 < (Nat.toDigits b n).length := by
  unfold Nat.toDigits
  simp only [Nat.toDigitsCore]
  split
  · simp
  · exact lt_of_lt_of_le (by simp) (toDigitsCore_length_le b n (n / b) _)

/-- `toString` of a natural number is a non-empty string. -/
theorem nat_toString_length_pos (n : Nat) : 0 < (toString n).length := by
  show 0 < (Nat.repr n).length
  unfold Nat.repr
  have h : ((Nat.toDigits 10 n).asString).length = (Nat.toDigits 10 n).length := by
    simp [String.length, List.asString]
  rw [h]
  exact toDigits_length_pos 10 n

/-- The lengths of the full candidate paths are strictly increasing. -/
theorem folder_candidate_path_length_lt (root name : String) (k : Nat) :
    (root ++ "/" ++ folder_candidate name k).length <
      (root ++ "/" ++ folder_candidate name (k + 1)).length := by
  have hstep : folder_candidate name (k + 1) =
      folder_candidate name k ++ toString (k + 1) := rfl
  rw [hstep]
  simp only [String.length_append]
  have := nat_toString_length_pos (k + 1)
  omega

/-- Distinct retry counts give distinct candidate paths. -/
theorem folder_candidate_path_injective (root name : String) :
    Function.Injective (fun k => root ++ "/" ++ folder_candidate name k) := by
  have hmono : StrictMono (fun k => (root ++ "/" ++ folder_candidate name k).length) :=
    strictMono_nat_of_lt_succ (fun k => folder_candidate_path_length_lt root name k)
  intro a b hab
  exact hmono.injective (by simpa using congrArg String.length hab)

/-- C6 counterexample: against a directory-existence oracle that reports a
collision for every path, the retry loop of `create_folder` never reaches a
collision-free candidate — no amount of fuel makes it return. -/
theorem C6_termination_counterexample :
    ¬ ∃ (fuel : Nat) (r : List String × String),
        create_folder (fun _ => true) "/Game" "NewFolder" fuel = some r := by
  rintro ⟨fuel, r, hr⟩
  have hnone : ∀ (f : Nat) (nm : String) (ix : Nat),
      create_folder_loop (fun _ => true) "/Game" f nm ix = none := by
    intro f
    induction f with
    | zero => intro nm ix; rfl
    | succ f ih => intro nm ix; simp [create_folder_loop, ih]
  rw [create_folder, hnone] at hr
  exact Option.noConfusion hr

/-- C6 (amended): for every root, every name and every directory-existence
oracle that reports a collision for only finitely many paths (in particular
any real filesystem state), `create_folder` terminates: some finite fuel makes
the retry loop reach a collision-free candidate and return. -/
theorem C6_termination_amended (ex : String → Bool) (root name : String)
    (hfin : {p : String | ex p = true}.Finite) :
    ∃ (fuel : Nat) (r : List String × String),
      create_folder ex root name fuel = some r := by
  classical
  have hex : ∃ k, ex (root ++ "/" ++ folder_candidate name k) = false := by
    by_contra hall
    push_neg at hall
    have hsub : Set.range (fun k => root ++ "/" ++ folder_candidate name k) ⊆
        {p : String | ex p = true} := by
      rintro p ⟨k, rfl⟩
      have := hall k
      simpa using Bool.not_eq_false (ex (root ++ "/" ++ folder_candidate name k)) |>.mp this
    exact Set.infinite_range_of_injective (folder_candidate_path_injective root name)
      (hfin.subset hsub)
  refine ⟨Nat.find hex + 1,
    ([root ++ "/" ++ folder_candidate name (Nat.find hex)],
      root ++ "/" ++ folder_candidate name (Nat.find hex)), ?_⟩
  have hmin : ∀ i, 0 ≤ i → i < 0 + Nat.find hex →
      ex (root ++ "/" ++ folder_candidate name i) = true := by
    intro i _ hi
    have := Nat.find_min hex (by omega : i < Nat.find hex)
    simpa using this
  have := create_folder_loop_spec ex root name (Nat.find hex) 0 (Nat.find hex + 1)
    (by simpa using Nat.find_spec hex) hmin (by omega)
  simpa [create_folder, folder_candidate] using this

/-- Witness for C6 (amended): an oracle whose collision set is the singleton
`/Game/X` is finite, so `create_folder` terminates on it. -/
theorem C6_termination_amended_witness :
    ∃ (fuel : Nat) (r : List String × String),
      create_folder (fun p => p == "/Game/X") "/Game" "X" fuel = some r := by
  refine C6_termination_amended (fun p => p == "/Game/X") "/Game" "X" ?_
  have hset : {p : String | (p == "/Game/X") = true} = {"/Game/X"} := by
    ext p
    simp [beq_iff_eq]
  rw [hset]
  exact Set.finite_singleton _

/-! ## JSON file helpers (`helpers.read_json_file`, `helpers.write_to_json_file`)

Filesystem effects are modelled by outcome parameters: the kind of exception
the underlying call raises (or success).  Raised exceptions are the
`Except.error` branch of the result; log calls are returned as an explicit
trace of `(level, message)` pairs. -/

/-- Kinds of Python exception relevant to the JSON helpers. -/
inductive PyExc where
  | ioError
  | typeError
  | valueError
deriving DecidableEq, Repr

/-- Severity of an `unreal.log*` call. -/
inductive LogLevel where
  | info
  | warning
  | error
deriving DecidableEq, Repr

/-- Embedding of `helpers.write_to_json_file`.  `write_outcome` is the
behaviour of the `open(filename, "w")` / `json.dump` block: `none` for
success, `some e` when it raises exception `e`.  The `try/except IOError`
catches only `IOError`; the result pairs the Python return (or raised
exception) with the log trace. -/
def write_to_json_file (write_outcome : Option PyExc) (filename : String) :
    Except PyExc (Option String) × List (LogLevel × String) :=
  match write_outcome with
  | none =>
    (Except.ok (some filename), [(LogLevel.info, "File correctly saved to: " ++ filename)])
  | some PyExc.ioError =>
    (Except.ok none, [(LogLevel.error, "Data not saved to file " ++ filename)])
  | some e => (Except.error e, [])

/-- Embedding of `helpers.read_json_file` over data type `α`.  `stat_result`
is the behaviour of `os.stat(filename).st_size` (file size, or a raised
exception — this call happens before the `try` block); `load_result` is the
behaviour of the `open(filename, "r")` / `json.load` block.  The result pairs
the Python return (`none` models Python `None`) or raised exception with the
log trace. -/
def read_json_file {α : Type} (stat_result : Except PyExc Nat)
    (load_result : Except PyExc α) (filename : String) :
    Except PyExc (Option α) × List (LogLevel × String) :=
  match stat_result with
  | Except.error e => (Except.error e, [])
  | Except.ok size =>
    if size = 0 then (Except.ok none, [])
    else
      match load_result with
      | Except.error err =>
        (Except.error err, [(LogLevel.warning, "Could not read " ++ filename)])
      | Except.ok data => (Except.ok (some data), [])

/-- C7 counterexample: the claim says every write failure is logged and
suppressed, but the code catches only `IOError`.  When the `json.dump` block
raises a `TypeError` (for example for unserializable data), the function
re-raises it without logging and does not return `None`. -/
theorem C7_write_suppression_counterexample :
    write_to_json_file (some PyExc.typeError) "out.json" =
      (Except.error PyExc.typeError, []) ∧
    (write_to_json_file (some PyExc.typeError) "out.json").1 ≠ Except.ok none := by
  refine ⟨rfl, ?_⟩
  intro h
  exact Except.noConfusion h

/-- C7 (amended): write failures raising `IOError` are logged as an error and
suppressed (the function returns `None`); write failures raising any other
exception propagate unlogged; on success the function logs and returns the
filename. -/
theorem C7_write_suppression_amended (filename : String) :
    write_to_json_file (some PyExc.ioError) filename =
      (Except.ok none, [(LogLevel.error, "Data not saved to file " ++ filename)]) ∧
    (∀ e : PyExc, e ≠ PyExc.ioError →
      write_to_json_file (some e) filename = (Except.error e, [])) ∧
    write_to_json_file none filename =
      (Except.ok (some filename), [(LogLevel.info, "File correctly saved to: " ++ filename)]) := by
  refine ⟨rfl, ?_, rfl⟩
  intro e he
  cases e with
  | ioError => exact absurd rfl he
  | typeError => rfl
  | valueError => rfl

/-- Witness for C7 (amended) at a concrete non-`IOError` failure. -/
theorem C7_write_suppression_amended_witness :
    write_to_json_file (some PyExc.typeError) "data.json" =
      (Except.error PyExc.typeError, []) :=
  (C7_write_suppression_amended "data.json").2.1 PyExc.typeError (by decide)

/-- C8 counterexample: the claim says every read failure is logged with a
warning and then re-raised, but the `os.stat` call happens before the `try`
block: on a missing file it raises without any warning being logged. -/
theorem C8_read_reraise_counterexample :
    read_json_file (Except.error PyExc.ioError) (Except.ok (0 : Int)) "missing.json" =
      (Except.error PyExc.ioError, []) ∧
    (read_json_file (Except.error PyExc.ioError) (Except.ok (0 : Int)) "missing.json").2 = [] := by
  exact ⟨rfl, rfl⟩

/-- C8 (amended): failures raised while opening or parsing the file inside the
`try` block are logged with a warning and then re-raised as the original
exception; a failure of the preliminary `os.stat` size check is re-raised
without logging; an empty file short-circuits to returning `None` without any
read being attempted. -/
theorem C8_read_reraise_amended {α : Type} (filename : String) (size : Nat) (e : PyExc)
    (load_result : Except PyExc α) (hsize : size ≠ 0) :
    read_json_file (Except.ok size) (Except.error e : Except PyExc α) filename =
      (Except.error e, [(LogLevel.warning, "Could not read " ++ filename)]) ∧
    read_json_file (Except.error e) load_result filename = (Except.error e, []) ∧
    read_json_file (Except.ok 0) load_result filename = (Except.ok none, []) := by
  refine ⟨?_, rfl, rfl⟩
  simp only [read_json_file]
  rw [if_neg hsize]

/-- Witness for C8 (amended) at a concrete parse failure. -/
theorem C8_read_reraise_amended_witness :
    read_json_file (Except.ok 42) (Except.error PyExc.valueError : Except PyExc Int)
        "broken.json" =
      (Except.error PyExc.valueError, [(LogLevel.warning, "Could not read broken.json")]) := by
  have := (C8_read_reraise_amended "broken.json" 42 PyExc.valueError
    (Except.error PyExc.valueError : Except PyExc Int) (by decide)).1
  simpa using this

/-! ## FBX export (`assets.export_fbx_asset`)

`assets.export_fbx_asset` computes its destination path as
`helpers.clean_path(os.path.join(directory, (fbx_filename or asset.get_name()) + ".fbx"))`.
Python resolves `helpers.clean_path` by attribute lookup on the `helpers`
module at call time; the lookup raises `AttributeError` when the module
defines no such name. -/

/-- The module-level names defined by `ueGear/helpers.py` (imports,
constants and function definitions, in source order). -/
def helpers_module_attrs : List String :=
  ["os", "sys", "json", "tempfile", "OrderedDict", "unreal",
   "string_types", "text_type",
   "MATERIAL_SAMPLER_TYPES", "MATERIAL_PROPERTIES", "DEFAULT_FBX_IMPORT_OPTIONS",
   "is_string", "force_list", "get_index_in_list", "get_first_in_list",
   "create_temporary_directory", "read_json_file", "write_to_json_file",
   "get_unreal_version_name", "get_unreal_version", "get_current_unreal_project_path",
   "save_current_level", "get_editor_world", "get_game_world",
   "get_all_actors_in_current_level", "get_selected_actors_in_current_level",
   "get_all_actors_and_labels_in_current_level",
   "get_selected_actors_and_labels_in_current_level",
   "get_all_actors_and_names_in_current_level",
   "get_selected_actors_and_names_in_current_level",
   "get_actor_by_label_in_current_level", "delete_actor", "create_folder",
   "list_asset_paths", "asset_exists", "get_asset_unique_name", "rename_asset",
   "move_assets_to_path", "get_assets", "get_asset_data", "get_asset",
   "get_selected_asset_data", "get_selected_assets",
   "find_all_blueprints_data_assets_of_type", "create_asset", "import_assets",
   "generate_fbx_import_task", "import_fbx_asset", "generate_texture_import_task",
   "import_texture_asset", "create_material", "create_material_texture_sample",
   "convert_maya_transforms_into_unreal_transforms", "remove_sequence_camera",
   "get_subsequences"]

/-- `os.path.join(a, b)` for POSIX paths. -/
def os_path_join (a b : String) : String :=
  if b.startsWith "/" then b
  else if a = "" then b
  else if a.endsWith "/" then a ++ b
  else a ++ "/" ++ b

/-- An asset reference: the only observation `export_fbx_asset` makes of it
before failing is `get_name`. -/
structure UAsset where
  name : String
deriving DecidableEq, Repr

/-- How far `export_fbx_asset` got before returning or raising. -/
structure ExportTrace where
  export_tasks_built : Nat
  export_tasks_run : Nat
deriving DecidableEq, Repr

/-- Embedding of `assets.export_fbx_asset`.  The function first computes the
joined path, then resolves the attribute `clean_path` on the `helpers` module.
Since `helpers.py` defines no `clean_path`, the lookup raises
`AttributeError` before any export task is built or run; the (dead) success
branch models the remainder of the function, which would build and run one
export task and return the path. -/
def export_fbx_asset (asset : UAsset) (directory : String) (fbx_filename : String) :
    Except String String × ExportTrace :=
  let base := if fbx_filename ≠ "" then fbx_filename else asset.name
  let joined := os_path_join directory (base ++ ".fbx")
  if "clean_path" ∈ helpers_module_attrs then
    (Except.ok joined, { export_tasks_built := 1, export_tasks_run := 1 })
  else
    (Except.error "AttributeError: module ueGear.helpers has no attribute clean_path",
      { export_tasks_built := 0, export_tasks_run := 0 })

/-- C2: for every asset, directory and filename, `export_fbx_asset` raises
`AttributeError` (because `helpers.clean_path` is not defined anywhere in the
helpers module) before any export task is built or run, and consequently
never returns an exported FBX file path. -/
theorem C2_export_fbx_asset_always_raises (asset : UAsset) (directory fbx_filename : String) :
    export_fbx_asset asset directory fbx_filename =
      (Except.error "AttributeError: module ueGear.helpers has no attribute clean_path",
        { export_tasks_built := 0, export_tasks_run := 0 }) ∧
    "clean_path" ∉ helpers_module_attrs := by
  have habs : "clean_path" ∉ helpers_module_attrs := by decide
  refine ⟨?_, habs⟩
  unfold export_fbx_asset
  rw [if_neg habs]

/-! ## FBX import task construction (`generate_fbx_import_task`)

`helpers.generate_fbx_import_task` and `assets.generate_fbx_import_task` are
textually identical (their default-option constants `DEFAULT_FBX_IMPORT_OPTIONS`
and `DEFAULT_ASSETS_FBX_IMPORT_OPTIONS` hold the same entries), so one
embedding covers both.  A Python dictionary is an association list with
pairwise-distinct keys; `dict.pop(key, default)` returns the stored value and
removes the entry, or returns the default leaving the dictionary unchanged.
Because the function pops directly on the dictionary object the caller passed
(no copy is taken), the embedding returns the final state of that object. -/

/-- A Python value, as far as the FBX option dictionaries are concerned. -/
inductive PyVal where
  | vBool (b : Bool)
  | vStr (s : String)
  | vInt (n : Int)
  | vDict (entries : List (String × PyVal))
deriving Repr

/-- Python truthiness of a `PyVal`. -/
def PyVal.truthy : PyVal → Bool
  | vBool b => b
  | vStr s => s != ""
  | vInt n => n != 0
  | vDict es => !es.isEmpty

/-- The items of a `PyVal` that is a dictionary (iterating a non-dictionary
with `.items()` is outside the scope of this model). -/
def PyVal.dictEntries : PyVal → List (String × PyVal)
  | vDict es => es
  | _ => []

/-- `d.pop(k, dflt)`: the popped value and the dictionary afterwards. -/
def dict_pop (d : List (String × PyVal)) (k : String) (dflt : PyVal) :
    PyVal × List (String × PyVal) :=
  match d.lookup k with
  | some v => (v, d.eraseP (fun kv => kv.1 == k))
  | none => (dflt, d)

/-- `DEFAULT_FBX_IMPORT_OPTIONS` of `helpers.py` (and, entry for entry,
`DEFAULT_ASSETS_FBX_IMPORT_OPTIONS` of `assets.py`). -/
def DEFAULT_FBX_IMPORT_OPTIONS : List (String × PyVal) :=
  [("import_materials", PyVal.vBool true),
   ("import_textures", PyVal.vBool true),
   ("import_as_skeletal", PyVal.vBool false)]

/-- The observable state of the `unreal.AssetImportTask` built by
`generate_fbx_import_task`: plain fields, the skeletal-mesh import data
properties the host accepted (when any were requested), the base FBX option
properties the host accepted, and the final mesh type. -/
structure AssetImportTask where
  filename : String
  destination_path : String
  destination_name : Option String
  replace_existing : Bool
  automated : Bool
  save : Bool
  skeletal_mesh_import_data : Option (List (String × PyVal))
  option_props : List (String × PyVal)
  mesh_type_to_import : String

/-- `set_editor_property(name, value)` applied to each item in order:
`prop_ok` is the host's acceptance of a property name; a rejected property
logs a warning (collected in the second component) and is skipped. -/
def set_editor_properties (prop_ok : String → Bool) (msg : String)
    (items : List (String × PyVal)) : List (String × PyVal) × List String :=
  items.foldl
    (fun acc kv =>
      if prop_ok kv.1 then (acc.1 ++ [kv], acc.2)
      else (acc.1, acc.2 ++ [msg ++ kv.1]))
    ([], [])

/-- Embedding of `generate_fbx_import_task` (`helpers.py` lines 594-651,
identical in `assets.py` lines 231-288).  Returns the built task, the warning
log, and the final state of the dictionary object the caller passed in
(`none` when the caller passed no dictionary).  When the caller's dictionary
is empty, the Python `or` rebinds the local name to the module-level default
dictionary, so the caller's object is left untouched. -/
def generate_fbx_import_task (prop_ok sk_prop_ok : String → Bool)
    (filename destination_path : String) (destination_name : Option String)
    (replace_existing automated save : Bool)
    (fbx_options : Option (List (String × PyVal))) :
    AssetImportTask × List String × Option (List (String × PyVal)) :=
  let opts0 := match fbx_options with
    | some d => if d.isEmpty then DEFAULT_FBX_IMPORT_OPTIONS else d
    | none => DEFAULT_FBX_IMPORT_OPTIONS
  let pop1 := dict_pop opts0 "mesh_type_to_import" (PyVal.vBool false)
  let as_skeletal := pop1.1
  let pop2 := dict_pop pop1.2 "skeletal_mesh_import_data" (PyVal.vDict [])
  let sk_data := pop2.1
  let opts := pop2.2
  let sk_result :=
    if sk_data.truthy then
      some (set_editor_properties sk_prop_ok
        "Was not possible to set Skeletal Mesh FBX Import property: " sk_data.dictEntries)
    else none
  let base_result := set_editor_properties prop_ok
    "Was not possible to set FBX Import property: " opts
  let task : AssetImportTask :=
    { filename := filename
      destination_path := destination_path
      destination_name :=
        match destination_name with
        | some s => if s != "" then some s else none
        | none => none
      replace_existing := replace_existing
      automated := automated
      save := save
      skeletal_mesh_import_data := sk_result.map Prod.fst
      option_props := base_result.1
      mesh_type_to_import :=
        if as_skeletal.truthy then "FBXIT_SKELETAL_MESH" else "FBXIT_STATIC_MESH" }
  let caller_dict_after := match fbx_options with
    | some d => some (if d.isEmpty then d else opts)
    | none => none
  (task, (sk_result.map Prod.snd).getD [] ++ base_result.2, caller_dict_after)

/-- A key absent from an association list looks up to `none`. -/
theorem lookup_eq_none_of_not_mem_keys {β : Type} {l : List (String × β)} {k : String}
    (h : k ∉ l.map Prod.fst) : l.lookup k = none := by
  induction l with
  | nil => rfl
  | cons a t ih =>
    obtain ⟨a1, a2⟩ := a
    simp only [List.map_cons, List.mem_cons, not_or] at h
    have hbeq : (k == a1) = false := beq_eq_false_iff_ne.mpr h.1
    simp [List.lookup, hbeq, ih h.2]

/-- The keys of `eraseP` form a sublist of the original keys. -/
theorem keys_eraseP_sublist {β : Type} (l : List (String × β)) (p : String × β → Bool) :
    ((l.eraseP p).map Prod.fst).Sublist (l.map Prod.fst) :=
  (List.eraseP_sublist l).map Prod.fst

/-- Erasing the entry with key `k` from an association list with distinct
keys leaves no entry with key `k`. -/
theorem not_mem_keys_eraseP_self {β : Type} {l : List (String × β)} {k : String}
    (hnodup : (l.map Prod.fst).Nodup) :
    k ∉ (l.eraseP (fun kv => kv.1 == k)).map Prod.fst := by
  induction l with
  | nil => simp
  | cons a t ih =>
    obtain ⟨a1, a2⟩ := a
    simp only [List.map_cons, List.nodup_cons] at hnodup
    by_cases heq : a1 = k
    · subst heq
      rw [List.eraseP_cons_of_pos (by simp)]
      exact hnodup.1
    · rw [List.eraseP_cons_of_neg (by simp [heq])]
      simp only [List.map_cons, List.mem_cons, not_or]
      exact ⟨fun hk => heq hk.symm, ih hnodup.2⟩

/-- `dict_pop` always leaves the dictionary without the popped key's entry. -/
theorem dict_pop_snd (d : List (String × PyVal)) (k : String) (dflt : PyVal) :
    (dict_pop d k dflt).2 = d.eraseP (fun kv => kv.1 == k) := by
  unfold dict_pop
  cases hl : d.lookup k with
  | some v => rfl
  | none =>
    have hk : k ∉ d.map Prod.fst := by
      intro hmem
      induction d with
      | nil => simp at hmem
      | cons a t ih =>
        obtain ⟨a1, a2⟩ := a
        simp only [List.map_cons, List.mem_cons] at hmem
        by_cases heq : k = a1
        · subst heq
          simp [List.lookup] at hl
        · have hbeq : (k == a1) = false := beq_eq_false_iff_ne.mpr heq
          simp only [List.lookup, hbeq] at hl
          exact ih hl (hmem.resolve_left heq)
    rw [List.eraseP_of_forall_not]
    intro kv hkv
    simp only [beq_iff_eq]
    intro hkvk
    exact hk (List.mem_map.mpr ⟨kv, hkv, hkvk⟩)

/-- C10: `generate_fbx_import_task` mutates the caller's options dictionary:
for every non-empty dictionary passed in (with the distinct keys every Python
dictionary has), the entries for `mesh_type_to_import` and
`skeletal_mesh_import_data` are popped from that same dictionary, so after the
call the caller's dictionary is the original minus those two entries and no
longer contains either key. -/
theorem C10_options_dict_mutated (prop_ok sk_prop_ok : String → Bool)
    (filename destination_path : String) (destination_name : Option String)
    (replace_existing automated save : Bool) (d : List (String × PyVal))
    (hne : d ≠ []) (hnodup : (d.map Prod.fst).Nodup) :
    (generate_fbx_import_task prop_ok sk_prop_ok filename destination_path destination_name
        replace_existing automated save (some d)).2.2 =
      some ((d.eraseP (fun kv => kv.1 == "mesh_type_to_import")).eraseP
        (fun kv => kv.1 == "skeletal_mesh_import_data")) ∧
    ((d.eraseP (fun kv => kv.1 == "mesh_type_to_import")).eraseP
        (fun kv => kv.1 == "skeletal_mesh_import_data")).lookup "mesh_type_to_import" = none ∧
    ((d.eraseP (fun kv => kv.1 == "mesh_type_to_import")).eraseP
        (fun kv => kv.1 == "skeletal_mesh_import_data")).lookup "skeletal_mesh_import_data"
      = none := by
  have hempty : d.isEmpty = false := by
    cases d with
    | nil => exact absurd rfl hne
    | cons a t => rfl
  refine ⟨?_, ?_, ?_⟩
  · simp only [generate_fbx_import_task, hempty, Bool.false_eq_true, if_false,
      dict_pop_snd]
  · have hsub := keys_eraseP_sublist (d.eraseP (fun kv => kv.1 == "mesh_type_to_import"))
      (fun kv => kv.1 == "skeletal_mesh_import_data")
    have hnot1 := not_mem_keys_eraseP_self (l := d) (k := "mesh_type_to_import") hnodup
    exact lookup_eq_none_of_not_mem_keys (fun hmem => hnot1 (hsub.subset hmem))
  · have hnodup1 : ((d.eraseP
        (fun kv => kv.1 == "mesh_type_to_import")).map Prod.fst).Nodup :=
      hnodup.sublist (keys_eraseP_sublist d (fun kv => kv.1 == "mesh_type_to_import"))
    exact lookup_eq_none_of_not_mem_keys (not_mem_keys_eraseP_self hnodup1)

/-- Witness for C10 at a concrete two-entry dictionary. -/
theorem C10_options_dict_mutated_witness :
    (generate_fbx_import_task (fun _ => true) (fun _ => true) "a.fbx" "/Game/A" none
        true true true
        (some [("mesh_type_to_import", PyVal.vBool true),
               ("import_materials", PyVal.vBool true)])).2.2 =
      some [("import_materials", PyVal.vBool true)] := by
  have := (C10_options_dict_mutated (fun _ => true) (fun _ => true) "a.fbx" "/Game/A" none
    true true true
    [("mesh_type_to_import", PyVal.vBool true), ("import_materials", PyVal.vBool true)]
    (by simp) (by simp)).1
  simpa using this

end UeGear
